import Mathlib

/-!
Formal model of the reactphysics3d capsule collision shape
(CapsuleShape.cpp, given as src/unnamed/part_000) and of the
DynamicsWorld start/stop/update interface (src/src/engine/DynamicsWorld.h).
The machine scalar type (decimal) is modelled by the real numbers, and the
constant MACHINE_EPSILON from configuration.h (not under src) is passed as
an explicit parameter of the support function that reads it.
-/

/-- Three component vector over the reals, modelling the Vector3 type of the
library (Vector3.h is not under src; the operations below are the standard
ones the spec names). -/
structure Rp3d.Vector3 where
  x : ℝ
  y : ℝ
  z : ℝ

/-- Modelled from the spec: componentwise vector addition (operator+ of
Vector3, whose header is not under src). -/
def Rp3d.Vector3.add (a b : Rp3d.Vector3) : Rp3d.Vector3 :=
  ⟨a.x + b.x, a.y + b.y, a.z + b.z⟩

/-- Modelled from the spec: componentwise vector subtraction. -/
def Rp3d.Vector3.sub (a b : Rp3d.Vector3) : Rp3d.Vector3 :=
  ⟨a.x - b.x, a.y - b.y, a.z - b.z⟩

/-- Modelled from the spec: multiplication of a vector by a scalar. -/
def Rp3d.Vector3.mul (a : Rp3d.Vector3) (s : ℝ) : Rp3d.Vector3 :=
  ⟨a.x * s, a.y * s, a.z * s⟩

/-- Modelled from the spec: the dot product of two vectors. -/
def Rp3d.Vector3.dot (a b : Rp3d.Vector3) : ℝ :=
  a.x * b.x + a.y * b.y + a.z * b.z

/-- Modelled from the spec: the squared Euclidean norm, Vector3::lengthSquare. -/
def Rp3d.Vector3.lengthSquare (a : Rp3d.Vector3) : ℝ :=
  a.x * a.x + a.y * a.y + a.z * a.z

/-- Modelled from the spec: the Euclidean norm, Vector3::length. -/
noncomputable def Rp3d.Vector3.length (a : Rp3d.Vector3) : ℝ :=
  Real.sqrt a.lengthSquare

/-- Modelled from the spec: Vector3::getUnit, the vector divided by its norm
(normalize of the spec). -/
noncomputable def Rp3d.Vector3.getUnit (a : Rp3d.Vector3) : Rp3d.Vector3 :=
  ⟨a.x / a.length, a.y / a.length, a.z / a.length⟩

/-- Euclidean distance between two points, used to state the support point
distance property of the spec. -/
noncomputable def Rp3d.Vector3.distanceTo (a b : Rp3d.Vector3) : ℝ :=
  (a.sub b).length

/-- The capsule collision shape state: the stored radius and half height
fields of CapsuleShape. -/
structure Rp3d.CapsuleShape where
  mRadius : ℝ
  mHalfHeight : ℝ

/-- The CapsuleShape constructor (src/unnamed/part_000 lines 34 to 38): it
stores the radius and half of the given height and asserts radius > 0 and
height > 0; a failed assertion aborts construction and is modelled as none,
so a shape value is produced exactly when both preconditions hold. -/
noncomputable def Rp3d.CapsuleShape.construct (radius height : ℝ) :
    Option Rp3d.CapsuleShape :=
  if 0 < radius ∧ 0 < height then some ⟨radius, height * (0.5 : ℝ)⟩ else none

/-- CapsuleShape::getLocalSupportPointWithMargin (src/unnamed/part_000
lines 58 to 87), with MACHINE_EPSILON passed as the machineEpsilon parameter. -/
noncomputable def Rp3d.CapsuleShape.getLocalSupportPointWithMargin
    (s : Rp3d.CapsuleShape) (machineEpsilon : ℝ) (direction : Rp3d.Vector3) : Rp3d.Vector3 :=
  if direction.lengthSquare ≥ machineEpsilon * machineEpsilon then
    let unitDirection := direction.getUnit
    let centerTopSphere : Rp3d.Vector3 := ⟨0, s.mHalfHeight, 0⟩
    let topSpherePoint := centerTopSphere.add (unitDirection.mul s.mRadius)
    let dotProductTop := topSpherePoint.dot direction
    let centerBottomSphere : Rp3d.Vector3 := ⟨0, -s.mHalfHeight, 0⟩
    let bottomSpherePoint :=
      centerBottomSphere.add (unitDirection.mul s.mRadius)
    let dotProductBottom := bottomSpherePoint.dot direction
    if dotProductTop > dotProductBottom then topSpherePoint
    else bottomSpherePoint
  else
    ⟨0, s.mRadius, 0⟩

/-- CapsuleShape::getLocalSupportPointWithoutMargin (src/unnamed/part_000
lines 90 to 104). -/
noncomputable def Rp3d.CapsuleShape.getLocalSupportPointWithoutMargin
    (s : Rp3d.CapsuleShape) (direction : Rp3d.Vector3) : Rp3d.Vector3 :=
  if direction.y > 0 then ⟨0, s.mHalfHeight, 0⟩ else ⟨0, -s.mHalfHeight, 0⟩

/-- A 3 by 3 matrix of reals, modelling Matrix3x3; the entry aij sits at row
i, column j, in the order taken by Matrix3x3::setAllValues. -/
structure Rp3d.Matrix3x3 where
  a11 : ℝ
  a12 : ℝ
  a13 : ℝ
  a21 : ℝ
  a22 : ℝ
  a23 : ℝ
  a31 : ℝ
  a32 : ℝ
  a33 : ℝ

/-- CapsuleShape::computeLocalInertiaTensor (src/unnamed/part_000 lines 107
to 125); the tensor output parameter is modelled as the return value. -/
noncomputable def Rp3d.CapsuleShape.computeLocalInertiaTensor
    (s : Rp3d.CapsuleShape) (mass : ℝ) : Rp3d.Matrix3x3 :=
  let height := s.mHalfHeight + s.mHalfHeight
  let radiusSquare := s.mRadius * s.mRadius
  let heightSquare := height * height
  let radiusSquareDouble := radiusSquare + radiusSquare
  let factor1 := (2 : ℝ) * s.mRadius / ((4 : ℝ) * s.mRadius + (3 : ℝ) * height)
  let factor2 := (3 : ℝ) * height / ((4 : ℝ) * s.mRadius + (3 : ℝ) * height)
  let sum1 := (0.4 : ℝ) * radiusSquareDouble
  let sum2 := (0.75 : ℝ) * height * s.mRadius + (0.5 : ℝ) * heightSquare
  let sum3 := (0.25 : ℝ) * radiusSquare + (1 / 12 : ℝ) * heightSquare
  let IxxAndzz := factor1 * mass * (sum1 + sum2) + factor2 * mass * sum3
  let Iyy := factor1 * mass * sum1 +
    factor2 * mass * (0.25 : ℝ) * radiusSquareDouble
  ⟨IxxAndzz, 0, 0, 0, Iyy, 0, 0, 0, IxxAndzz⟩

theorem Rp3d.Vector3.lengthSquare_nonneg (v : Rp3d.Vector3) :
    0 ≤ v.lengthSquare := by
  unfold Rp3d.Vector3.lengthSquare
  nlinarith [mul_self_nonneg v.x, mul_self_nonneg v.y, mul_self_nonneg v.z]

theorem Rp3d.Vector3.length_mul_self (v : Rp3d.Vector3) :
    v.length * v.length = v.lengthSquare :=
  Real.mul_self_sqrt v.lengthSquare_nonneg

theorem Rp3d.Vector3.length_pos (v : Rp3d.Vector3)
    (h : 0 < v.lengthSquare) : 0 < v.length :=
  Real.sqrt_pos.mpr h

theorem Rp3d.Vector3.getUnit_lengthSquare (v : Rp3d.Vector3)
    (h : 0 < v.lengthSquare) : v.getUnit.lengthSquare = 1 := by
  have hl : 0 < v.length := v.length_pos h
  have hsq : v.length * v.length = v.lengthSquare := v.length_mul_self
  unfold Rp3d.Vector3.getUnit
  unfold Rp3d.Vector3.lengthSquare at hsq ⊢
  field_simp
  linarith [hsq]

theorem capsule_margin_eval (s : Rp3d.CapsuleShape) (eps : ℝ)
    (d : Rp3d.Vector3) (hcond : eps * eps ≤ d.lengthSquare) :
    s.getLocalSupportPointWithMargin eps d =
      if 0 < s.mHalfHeight * d.y then
        (Rp3d.Vector3.mk 0 s.mHalfHeight 0).add (d.getUnit.mul s.mRadius)
      else
        (Rp3d.Vector3.mk 0 (-s.mHalfHeight) 0).add (d.getUnit.mul s.mRadius) := by
  unfold Rp3d.CapsuleShape.getLocalSupportPointWithMargin
  rw [if_pos hcond]
  simp only [Rp3d.Vector3.dot, Rp3d.Vector3.add, Rp3d.Vector3.mul]
  split_ifs with hbr hy hy
  · rfl
  · exact absurd (by nlinarith [hbr]) hy
  · exact absurd (by nlinarith [hy]) hbr
  · rfl

theorem distance_add_unit_mul (e u : Rp3d.Vector3) (r : ℝ) (hr : 0 ≤ r)
    (hu : u.lengthSquare = 1) : (e.add (u.mul r)).distanceTo e = r := by
  unfold Rp3d.Vector3.distanceTo Rp3d.Vector3.length
  have key : ((e.add (u.mul r)).sub e).lengthSquare = r * r := by
    simp only [Rp3d.Vector3.add, Rp3d.Vector3.mul, Rp3d.Vector3.sub,
      Rp3d.Vector3.lengthSquare] at hu ⊢
    linear_combination (r * r) * hu
  rw [key, Real.sqrt_mul_self hr]

theorem capsule_support_dist_aux (r h : ℝ) (u : Rp3d.Vector3) (hr : 0 ≤ r)
    (hu : u.lengthSquare = 1) (huy : 0 ≤ h * u.y) :
    ((Rp3d.Vector3.mk 0 h 0).add (u.mul r)).distanceTo ⟨0, h, 0⟩ = r ∧
    r ≤ ((Rp3d.Vector3.mk 0 h 0).add (u.mul r)).distanceTo ⟨0, -h, 0⟩ := by
  refine ⟨distance_add_unit_mul _ u r hr hu, ?_⟩
  unfold Rp3d.Vector3.distanceTo Rp3d.Vector3.length
  have key : (((Rp3d.Vector3.mk 0 h 0).add (u.mul r)).sub
      ⟨0, -h, 0⟩).lengthSquare = r * r + 4 * (h * h) + 4 * (h * u.y) * r := by
    simp only [Rp3d.Vector3.add, Rp3d.Vector3.mul, Rp3d.Vector3.sub,
      Rp3d.Vector3.lengthSquare] at hu ⊢
    linear_combination (r * r) * hu
  rw [key]
  calc r = Real.sqrt (r * r) := (Real.sqrt_mul_self hr).symm
    _ ≤ Real.sqrt (r * r + 4 * (h * h) + 4 * (h * u.y) * r) :=
        Real.sqrt_le_sqrt (by nlinarith [mul_self_nonneg h])

/-- C1: for a capsule with positive radius r and positive half height h, and
any direction d whose squared length is at least machine epsilon squared, the
support point with margin lies at distance exactly r from the segment
endpoint selected by the support point without margin, that endpoint is the
nearer one of the two endpoints (0, h, 0) and (0, -h, 0), and the support
point with margin equals the support point without margin plus the
normalized direction scaled by r (both functions select the same endpoint). -/
theorem c1_capsule_support_margin_correct (r h eps : ℝ) (d : Rp3d.Vector3)
    (hr : 0 < r) (hh : 0 < h) (heps : 0 < eps)
    (hd : eps * eps ≤ d.lengthSquare) :
    Rp3d.Vector3.distanceTo
        ((Rp3d.CapsuleShape.mk r h).getLocalSupportPointWithMargin eps d)
        ((Rp3d.CapsuleShape.mk r h).getLocalSupportPointWithoutMargin d)
      = r ∧
    Rp3d.Vector3.distanceTo
        ((Rp3d.CapsuleShape.mk r h).getLocalSupportPointWithMargin eps d)
        ((Rp3d.CapsuleShape.mk r h).getLocalSupportPointWithoutMargin d)
      ≤ Rp3d.Vector3.distanceTo
        ((Rp3d.CapsuleShape.mk r h).getLocalSupportPointWithMargin eps d)
        ⟨0, h, 0⟩ ∧
    Rp3d.Vector3.distanceTo
        ((Rp3d.CapsuleShape.mk r h).getLocalSupportPointWithMargin eps d)
        ((Rp3d.CapsuleShape.mk r h).getLocalSupportPointWithoutMargin d)
      ≤ Rp3d.Vector3.distanceTo
        ((Rp3d.CapsuleShape.mk r h).getLocalSupportPointWithMargin eps d)
        ⟨0, -h, 0⟩ ∧
    (Rp3d.CapsuleShape.mk r h).getLocalSupportPointWithMargin eps d =
      ((Rp3d.CapsuleShape.mk r h).getLocalSupportPointWithoutMargin d).add
        (d.getUnit.mul r) := by
  have hlsq : 0 < d.lengthSquare := lt_of_lt_of_le (mul_pos heps heps) hd
  have hu1 : d.getUnit.lengthSquare = 1 := d.getUnit_lengthSquare hlsq
  have hlen : 0 < d.length := d.length_pos hlsq
  by_cases hy : d.y > 0
  · have hp : (Rp3d.CapsuleShape.mk r h).getLocalSupportPointWithMargin eps d
        = (Rp3d.Vector3.mk 0 h 0).add (d.getUnit.mul r) := by
      rw [capsule_margin_eval _ eps d hd, if_pos (mul_pos hh hy)]
    have he : (Rp3d.CapsuleShape.mk r h).getLocalSupportPointWithoutMargin d
        = ⟨0, h, 0⟩ := by
      unfold Rp3d.CapsuleShape.getLocalSupportPointWithoutMargin
      rw [if_pos hy]
    have huy : 0 ≤ h * d.getUnit.y := by
      have hun : 0 ≤ d.getUnit.y := by
        show 0 ≤ d.y / d.length
        exact div_nonneg (le_of_lt hy) (le_of_lt hlen)
      exact mul_nonneg (le_of_lt hh) hun
    obtain ⟨hd1, hd2⟩ :=
      capsule_support_dist_aux r h d.getUnit (le_of_lt hr) hu1 huy
    rw [hp, he]
    exact ⟨hd1, le_refl _, by rw [hd1]; exact hd2, rfl⟩
  · have hyle : d.y ≤ 0 := le_of_not_lt hy
    have hp : (Rp3d.CapsuleShape.mk r h).getLocalSupportPointWithMargin eps d
        = (Rp3d.Vector3.mk 0 (-h) 0).add (d.getUnit.mul r) := by
      rw [capsule_margin_eval _ eps d hd,
        if_neg (by simp only [not_lt]; nlinarith)]
    have he : (Rp3d.CapsuleShape.mk r h).getLocalSupportPointWithoutMargin d
        = ⟨0, -h, 0⟩ := by
      unfold Rp3d.CapsuleShape.getLocalSupportPointWithoutMargin
      rw [if_neg hy]
    have huy : 0 ≤ (-h) * d.getUnit.y := by
      have hun : d.getUnit.y ≤ 0 := by
        show d.y / d.length ≤ 0
        have hnn : 0 ≤ (-d.y) / d.length :=
          div_nonneg (neg_nonneg.mpr hyle) (le_of_lt hlen)
        rw [neg_div] at hnn
        linarith
      nlinarith
    obtain ⟨hd1, hd2⟩ :=
      capsule_support_dist_aux r (-h) d.getUnit (le_of_lt hr) hu1 huy
    have hnn : (Rp3d.Vector3.mk 0 (-(-h)) 0) = ⟨0, h, 0⟩ := by norm_num
    rw [hnn] at hd2
    rw [hp, he]
    exact ⟨hd1, by rw [hd1]; exact hd2, le_refl _, rfl⟩

/-- Witness for C1: the capsule of radius 1 and half height 1, machine
epsilon one half, and the direction (3, 4, 0). -/
theorem c1_capsule_support_margin_correct_witness :
    (0 : ℝ) < 1 ∧ (0 : ℝ) < 1 / 2 ∧
    (1 / 2 : ℝ) * (1 / 2) ≤ Rp3d.Vector3.lengthSquare ⟨3, 4, 0⟩ ∧
    Rp3d.Vector3.distanceTo
        ((Rp3d.CapsuleShape.mk 1 1).getLocalSupportPointWithMargin (1 / 2)
          ⟨3, 4, 0⟩)
        ((Rp3d.CapsuleShape.mk 1 1).getLocalSupportPointWithoutMargin
          ⟨3, 4, 0⟩) = 1 :=
  ⟨by norm_num, by norm_num, by norm_num [Rp3d.Vector3.lengthSquare],
    (c1_capsule_support_margin_correct 1 1 (1 / 2) ⟨3, 4, 0⟩ (by norm_num)
      (by norm_num) (by norm_num)
      (by norm_num [Rp3d.Vector3.lengthSquare])).1⟩

/-- Counterexample to C2: for the capsule of radius 1 and half height 1 and
the tie direction (1, 0, 0), whose y component is zero (machine epsilon one
half), the support point with margin is the bottom sphere support point
(1, -1, 0), not the top sphere support point (0, 1, 0) + normalize(d) * 1 =
(1, 1, 0) required by the claim: the strict comparison of the dot products
fails on a tie, so the else branch returns the bottom sphere point. -/
theorem c2_tie_break_counterexample :
    (Rp3d.CapsuleShape.mk 1 1).getLocalSupportPointWithMargin (1 / 2)
        ⟨1, 0, 0⟩ = ⟨1, -1, 0⟩ ∧
    (Rp3d.CapsuleShape.mk 1 1).getLocalSupportPointWithMargin (1 / 2)
        ⟨1, 0, 0⟩ ≠
      (Rp3d.Vector3.mk 0 1 0).add
        ((Rp3d.Vector3.getUnit ⟨1, 0, 0⟩).mul 1) := by
  have hu : Rp3d.Vector3.getUnit ⟨1, 0, 0⟩ = ⟨1, 0, 0⟩ := by
    simp only [Rp3d.Vector3.getUnit, Rp3d.Vector3.length,
      Rp3d.Vector3.lengthSquare]
    norm_num [Real.sqrt_one]
  have hres : (Rp3d.CapsuleShape.mk 1 1).getLocalSupportPointWithMargin
      (1 / 2) ⟨1, 0, 0⟩ = ⟨1, -1, 0⟩ := by
    rw [capsule_margin_eval _ _ _ (by norm_num [Rp3d.Vector3.lengthSquare])]
    rw [if_neg (by show ¬ (0 : ℝ) < 1 * 0; norm_num), hu]
    simp only [Rp3d.Vector3.add, Rp3d.Vector3.mul]
    norm_num
  refine ⟨hres, ?_⟩
  rw [hres, hu]
  simp only [Rp3d.Vector3.add, Rp3d.Vector3.mul, ne_eq,
    Rp3d.Vector3.mk.injEq]
  norm_num

/-- C2 amended: for every capsule and non degenerate direction whose y
component is zero (so the two candidate dot products tie), the support point
with margin is the support point of the candidate evaluated second, the
bottom sphere: (0, -h, 0) + normalize(d) * r, because the strict greater
than comparison of the dot products fails on a tie. -/
theorem c2_tie_break_amended (s : Rp3d.CapsuleShape) (eps : ℝ)
    (d : Rp3d.Vector3) (hd : eps * eps ≤ d.lengthSquare) (hy : d.y = 0) :
    s.getLocalSupportPointWithMargin eps d =
      (Rp3d.Vector3.mk 0 (-s.mHalfHeight) 0).add
        (d.getUnit.mul s.mRadius) := by
  rw [capsule_margin_eval s eps d hd, if_neg (by rw [hy]; norm_num)]

/-- Witness for the amended C2 at the capsule of radius 1 and half height 1
and the tie direction (1, 0, 0). -/
theorem c2_tie_break_amended_witness :
    (1 / 2 : ℝ) * (1 / 2) ≤ Rp3d.Vector3.lengthSquare ⟨1, 0, 0⟩ ∧
    (Rp3d.Vector3.mk 1 0 0).y = 0 ∧
    (Rp3d.CapsuleShape.mk 1 1).getLocalSupportPointWithMargin (1 / 2)
        ⟨1, 0, 0⟩ =
      (Rp3d.Vector3.mk 0 (-1) 0).add
        ((Rp3d.Vector3.getUnit ⟨1, 0, 0⟩).mul 1) :=
  ⟨by norm_num [Rp3d.Vector3.lengthSquare], rfl,
    c2_tie_break_amended ⟨1, 1⟩ (1 / 2) ⟨1, 0, 0⟩
      (by norm_num [Rp3d.Vector3.lengthSquare]) rfl⟩

/-- C5: for every capsule and every direction whose squared length is below
machine epsilon squared (in particular the zero direction), the support
point with margin is exactly the boundary point (0, radius, 0). -/
theorem c5_degenerate_direction_support (s : Rp3d.CapsuleShape)
    (machineEpsilon : ℝ) (d : Rp3d.Vector3)
    (h : d.lengthSquare < machineEpsilon * machineEpsilon) :
    s.getLocalSupportPointWithMargin machineEpsilon d = ⟨0, s.mRadius, 0⟩ := by
  unfold Rp3d.CapsuleShape.getLocalSupportPointWithMargin
  rw [if_neg (not_le.mpr h)]

/-- Witness for C5: the capsule of radius 2 and half height 3, machine
epsilon 1 and the zero direction. -/
theorem c5_degenerate_direction_support_witness :
    Rp3d.Vector3.lengthSquare ⟨0, 0, 0⟩ < 1 * 1 ∧
    (Rp3d.CapsuleShape.mk 2 3).getLocalSupportPointWithMargin 1 ⟨0, 0, 0⟩ =
      ⟨0, 2, 0⟩ :=
  ⟨by norm_num [Rp3d.Vector3.lengthSquare],
    c5_degenerate_direction_support ⟨2, 3⟩ 1 ⟨0, 0, 0⟩
      (by norm_num [Rp3d.Vector3.lengthSquare])⟩

/-- C6: for a capsule with positive half height h, the support point without
margin is the top endpoint (0, h, 0) exactly when the direction's y
component is strictly positive, and the bottom endpoint (0, -h, 0) exactly
otherwise (including a zero y component and the zero direction); the
direction is not normalized. -/
theorem c6_support_without_margin_selection (s : Rp3d.CapsuleShape)
    (d : Rp3d.Vector3) (hh : 0 < s.mHalfHeight) :
    (s.getLocalSupportPointWithoutMargin d = ⟨0, s.mHalfHeight, 0⟩ ↔
      0 < d.y) ∧
    (s.getLocalSupportPointWithoutMargin d = ⟨0, -s.mHalfHeight, 0⟩ ↔
      ¬ 0 < d.y) := by
  unfold Rp3d.CapsuleShape.getLocalSupportPointWithoutMargin
  by_cases hy : d.y > 0
  · rw [if_pos hy]
    constructor
    · exact ⟨fun _ => hy, fun _ => rfl⟩
    · constructor
      · intro he
        have := congrArg Rp3d.Vector3.y he
        simp only at this
        linarith
      · intro hc
        exact absurd hy hc
  · rw [if_neg hy]
    constructor
    · constructor
      · intro he
        have := congrArg Rp3d.Vector3.y he
        simp only at this
        linarith
      · intro hc
        exact absurd hc hy
    · exact ⟨fun _ => hy, fun _ => rfl⟩

/-- Witness for C6: the capsule of radius 1 and half height 2 and the
direction (0, 3, 0). -/
theorem c6_support_without_margin_selection_witness :
    (0 : ℝ) < 2 ∧
    ((Rp3d.CapsuleShape.mk 1 2).getLocalSupportPointWithoutMargin
        ⟨0, 3, 0⟩ = ⟨0, 2, 0⟩ ↔ (0 : ℝ) < 3) ∧
    ((Rp3d.CapsuleShape.mk 1 2).getLocalSupportPointWithoutMargin
        ⟨0, 3, 0⟩ = ⟨0, -2, 0⟩ ↔ ¬ (0 : ℝ) < 3) :=
  ⟨by norm_num, c6_support_without_margin_selection ⟨1, 2⟩ ⟨0, 3, 0⟩
    (by norm_num)⟩

/-- C7: construction of a capsule succeeds and yields a shape that stores
the given radius and half the given height exactly when radius and height
are strictly positive; otherwise an asserted precondition fails and no
object is produced. -/
theorem c7_constructor_preconditions (radius height : ℝ) :
    (Rp3d.CapsuleShape.construct radius height =
        some ⟨radius, height * (0.5 : ℝ)⟩ ↔ 0 < radius ∧ 0 < height) ∧
    (Rp3d.CapsuleShape.construct radius height = none ↔
        ¬ (0 < radius ∧ 0 < height)) := by
  unfold Rp3d.CapsuleShape.construct
  by_cases hp : 0 < radius ∧ 0 < height
  · rw [if_pos hp]
    simp [hp]
  · rw [if_neg hp]
    simp [hp]

/-- C4: for the capsule constructed with radius one half and height 2 (so
half height 1), the support point with margin along (0, 1, 0) is
(0, 1.5, 0) and along (0, -1, 0) is (0, -1.5, 0), and the support point
without margin along those directions is (0, 1, 0) and (0, -1, 0); stated
for every machine epsilon whose square is at most 1. -/
theorem c4_worked_example (machineEpsilon : ℝ)
    (he : machineEpsilon * machineEpsilon ≤ 1) :
    Rp3d.CapsuleShape.construct (0.5 : ℝ) 2 = some ⟨0.5, 1⟩ ∧
    (Rp3d.CapsuleShape.mk (0.5 : ℝ) 1).getLocalSupportPointWithMargin
        machineEpsilon ⟨0, 1, 0⟩ = ⟨0, 1.5, 0⟩ ∧
    (Rp3d.CapsuleShape.mk (0.5 : ℝ) 1).getLocalSupportPointWithMargin
        machineEpsilon ⟨0, -1, 0⟩ = ⟨0, -1.5, 0⟩ ∧
    (Rp3d.CapsuleShape.mk (0.5 : ℝ) 1).getLocalSupportPointWithoutMargin
        ⟨0, 1, 0⟩ = ⟨0, 1, 0⟩ ∧
    (Rp3d.CapsuleShape.mk (0.5 : ℝ) 1).getLocalSupportPointWithoutMargin
        ⟨0, -1, 0⟩ = ⟨0, -1, 0⟩ := by
  have hu1 : Rp3d.Vector3.getUnit ⟨0, 1, 0⟩ = ⟨0, 1, 0⟩ := by
    simp only [Rp3d.Vector3.getUnit, Rp3d.Vector3.length,
      Rp3d.Vector3.lengthSquare]
    norm_num [Real.sqrt_one]
  have hu2 : Rp3d.Vector3.getUnit ⟨0, -1, 0⟩ = ⟨0, -1, 0⟩ := by
    simp only [Rp3d.Vector3.getUnit, Rp3d.Vector3.length,
      Rp3d.Vector3.lengthSquare]
    norm_num [Real.sqrt_one]
  refine ⟨?_, ?_, ?_, ?_, ?_⟩
  · unfold Rp3d.CapsuleShape.construct
    rw [if_pos (by norm_num)]
    norm_num
  · rw [capsule_margin_eval _ _ _
      (by simpa [Rp3d.Vector3.lengthSquare] using he)]
    rw [if_pos (show (0 : ℝ) < 1 * 1 by norm_num), hu1]
    simp only [Rp3d.Vector3.add, Rp3d.Vector3.mul]
    norm_num
  · rw [capsule_margin_eval _ _ _
      (by simpa [Rp3d.Vector3.lengthSquare] using he)]
    rw [if_neg (show ¬ (0 : ℝ) < 1 * (-1) by norm_num), hu2]
    simp only [Rp3d.Vector3.add, Rp3d.Vector3.mul]
    norm_num
  · unfold Rp3d.CapsuleShape.getLocalSupportPointWithoutMargin
    rw [if_pos (show (0 : ℝ) < 1 by norm_num)]
  · unfold Rp3d.CapsuleShape.getLocalSupportPointWithoutMargin
    rw [if_neg (show ¬ (-1 : ℝ) > 0 by norm_num)]

/-- Witness for C4 at machine epsilon one half. -/
theorem c4_worked_example_witness :
    (1 / 2 : ℝ) * (1 / 2) ≤ 1 ∧
    (Rp3d.CapsuleShape.mk (0.5 : ℝ) 1).getLocalSupportPointWithMargin
        (1 / 2) ⟨0, 1, 0⟩ = ⟨0, 1.5, 0⟩ :=
  ⟨by norm_num, (c4_worked_example (1 / 2) (by norm_num)).2.1⟩

/-- C3: for positive radius, height and mass, the local inertia tensor of
the capsule storing half height height/2 is the diagonal matrix given by
the composite cylinder plus hemispheres formulas with weights
factor1 = 2r/(4r + 3 height) and factor2 = 3 height/(4r + 3 height); in
particular the first and third diagonal entries are equal, all diagonal
entries are strictly positive, and all off diagonal entries are zero. -/
theorem c3_inertia_tensor (radius height mass : ℝ) (hr : 0 < radius)
    (hh : 0 < height) (hm : 0 < mass) :
    (Rp3d.CapsuleShape.computeLocalInertiaTensor ⟨radius, height / 2⟩
        mass).a11 =
      2 * radius / (4 * radius + 3 * height) * mass *
          ((0.4 : ℝ) * (2 * (radius * radius)) +
            (0.75 : ℝ) * height * radius +
            (0.5 : ℝ) * (height * height)) +
        3 * height / (4 * radius + 3 * height) * mass *
          ((0.25 : ℝ) * (radius * radius) + height * height / 12) ∧
    (Rp3d.CapsuleShape.computeLocalInertiaTensor ⟨radius, height / 2⟩
        mass).a22 =
      2 * radius / (4 * radius + 3 * height) * mass *
          ((0.4 : ℝ) * (2 * (radius * radius))) +
        3 * height / (4 * radius + 3 * height) * mass *
          ((0.25 : ℝ) * (2 * (radius * radius))) ∧
    (Rp3d.CapsuleShape.computeLocalInertiaTensor ⟨radius, height / 2⟩
        mass).a33 =
      (Rp3d.CapsuleShape.computeLocalInertiaTensor ⟨radius, height / 2⟩
        mass).a11 ∧
    0 < (Rp3d.CapsuleShape.computeLocalInertiaTensor ⟨radius, height / 2⟩
      mass).a11 ∧
    0 < (Rp3d.CapsuleShape.computeLocalInertiaTensor ⟨radius, height / 2⟩
      mass).a22 ∧
    (Rp3d.CapsuleShape.computeLocalInertiaTensor ⟨radius, height / 2⟩
      mass).a12 = 0 ∧
    (Rp3d.CapsuleShape.computeLocalInertiaTensor ⟨radius, height / 2⟩
      mass).a13 = 0 ∧
    (Rp3d.CapsuleShape.computeLocalInertiaTensor ⟨radius, height / 2⟩
      mass).a21 = 0 ∧
    (Rp3d.CapsuleShape.computeLocalInertiaTensor ⟨radius, height / 2⟩
      mass).a23 = 0 ∧
    (Rp3d.CapsuleShape.computeLocalInertiaTensor ⟨radius, height / 2⟩
      mass).a31 = 0 ∧
    (Rp3d.CapsuleShape.computeLocalInertiaTensor ⟨radius, height / 2⟩
      mass).a32 = 0 := by
  have hden : (0 : ℝ) < 4 * radius + 3 * height := by linarith
  have hdenn : (4 : ℝ) * radius + 3 * height ≠ 0 := ne_of_gt hden
  simp only [Rp3d.CapsuleShape.computeLocalInertiaTensor]
  refine ⟨?_, ?_, by trivial, ?_, ?_, by trivial, by trivial, by trivial,
    by trivial, by trivial, by trivial⟩
  · field_simp
    ring
  · field_simp
    ring
  · have h1 : (0 : ℝ) <
        2 * radius / (4 * radius + 3 * (height / 2 + height / 2)) * mass *
          ((0.4 : ℝ) * (radius * radius + radius * radius) +
            ((0.75 : ℝ) * (height / 2 + height / 2) * radius +
              (0.5 : ℝ) *
                ((height / 2 + height / 2) * (height / 2 + height / 2)))) := by
      apply mul_pos
      apply mul_pos
      · apply div_pos (by linarith) (by linarith)
      · exact hm
      · nlinarith
    have h2 : (0 : ℝ) <
        3 * (height / 2 + height / 2) /
            (4 * radius + 3 * (height / 2 + height / 2)) * mass *
          ((0.25 : ℝ) * (radius * radius) +
            1 / 12 * ((height / 2 + height / 2) * (height / 2 + height / 2))) := by
      apply mul_pos
      apply mul_pos
      · apply div_pos (by linarith) (by linarith)
      · exact hm
      · nlinarith
    nlinarith [h1, h2]
  · have h1 : (0 : ℝ) <
        2 * radius / (4 * radius + 3 * (height / 2 + height / 2)) * mass *
          ((0.4 : ℝ) * (radius * radius + radius * radius)) := by
      apply mul_pos
      apply mul_pos
      · apply div_pos (by linarith) (by linarith)
      · exact hm
      · nlinarith
    have h2 : (0 : ℝ) <
        3 * (height / 2 + height / 2) /
            (4 * radius + 3 * (height / 2 + height / 2)) * mass *
          (0.25 : ℝ) * (radius * radius + radius * radius) := by
      apply mul_pos
      apply mul_pos
      apply mul_pos
      · apply div_pos (by linarith) (by linarith)
      · exact hm
      · norm_num
      · nlinarith
    nlinarith [h1, h2]

/-- Witness for C3 at radius 1, height 2 and mass 3. -/
theorem c3_inertia_tensor_witness :
    (0 : ℝ) < 1 ∧ (0 : ℝ) < 2 ∧ (0 : ℝ) < 3 ∧
    (Rp3d.CapsuleShape.computeLocalInertiaTensor ⟨1, 2 / 2⟩ 3).a33 =
      (Rp3d.CapsuleShape.computeLocalInertiaTensor ⟨1, 2 / 2⟩ 3).a11 :=
  ⟨by norm_num, by norm_num, by norm_num,
    (c3_inertia_tensor 1 2 3 (by norm_num) (by norm_num)
      (by norm_num)).2.2.1⟩

/-- Modelled from the spec: the engine Timer (Timer.h is not under src). It
holds the fixed timestep configured at world construction and the Running
flag; Timer::start and Timer::stop drive the Stopped and Running states of
the spec state machine. -/
structure Rp3d.Timer where
  mTimestep : ℝ
  mIsRunning : Bool

/-- Modelled from the spec: Timer::start sets the running flag. -/
def Rp3d.Timer.start (t : Rp3d.Timer) : Rp3d.Timer :=
  { t with mIsRunning := true }

/-- Modelled from the spec: Timer::stop clears the running flag. -/
def Rp3d.Timer.stop (t : Rp3d.Timer) : Rp3d.Timer :=
  { t with mIsRunning := false }

/-- Modelled from the spec: the transform of a rigid body, a position plus
an orientation; the orientation is abstracted as a rotation vector so that
the spec integration step (advance by the velocity times the timestep) is
expressible. -/
structure Rp3d.Transform where
  mPosition : Rp3d.Vector3
  mOrientation : Rp3d.Vector3

/-- Modelled from the spec: the dynamic state of a rigid body read and
written by the world stepping: transform, linear and angular velocity, and
the awake flag (sleeping bodies are excluded from integration). -/
structure Rp3d.RigidBody where
  mTransform : Rp3d.Transform
  mLinearVelocity : Rp3d.Vector3
  mAngularVelocity : Rp3d.Vector3
  mIsAwake : Bool

/-- A contact manifold; its contact point data is not observed by the
claims below and is abstracted as an identifier. -/
structure Rp3d.ContactManifold where
  mId : ℕ

/-- A joint constraint, abstracted as an identifier. -/
structure Rp3d.Constraint where
  mId : ℕ

/-- The contact solver configuration held by the world. -/
structure Rp3d.ContactSolver where
  mNbIterations : ℕ
  mIsSplitImpulseActive : Bool
  mIsSolveFrictionAtCenterActive : Bool

/-- The constraint solver configuration held by the world. -/
structure Rp3d.ConstraintSolver where
  mIsErrorCorrectionActive : Bool

/-- The DynamicsWorld state, following the attribute list of
src/src/engine/DynamicsWorld.h lines 47 to 92; the per step scratch arrays
(constrained velocities and their index map) are rebuilt inside each step
and are not persistent observable state, so they are not carried here. -/
structure Rp3d.DynamicsWorld where
  mTimer : Rp3d.Timer
  mContactSolver : Rp3d.ContactSolver
  mConstraintSolver : Rp3d.ConstraintSolver
  mIsDeactivationActive : Bool
  mRigidBodies : List Rp3d.RigidBody
  mContactManifolds : List Rp3d.ContactManifold
  mJoints : List Rp3d.Constraint
  mGravity : Rp3d.Vector3
  mIsGravityOn : Bool

/-- DynamicsWorld::start (src/src/engine/DynamicsWorld.h lines 205 to 207):
it starts the timer. -/
def Rp3d.DynamicsWorld.start (w : Rp3d.DynamicsWorld) : Rp3d.DynamicsWorld :=
  { w with mTimer := w.mTimer.start }

/-- DynamicsWorld::stop (src/src/engine/DynamicsWorld.h lines 209 to 211):
it stops the timer. -/
def Rp3d.DynamicsWorld.stop (w : Rp3d.DynamicsWorld) : Rp3d.DynamicsWorld :=
  { w with mTimer := w.mTimer.stop }

/-- DynamicsWorld::getGravity (src/src/engine/DynamicsWorld.h lines 254 to
257). -/
def Rp3d.DynamicsWorld.getGravity (w : Rp3d.DynamicsWorld) : Rp3d.Vector3 :=
  w.mGravity

/-- DynamicsWorld::getIsGravityOn (src/src/engine/DynamicsWorld.h lines 259
to 262). -/
def Rp3d.DynamicsWorld.getIsGravityOn (w : Rp3d.DynamicsWorld) : Bool :=
  w.mIsGravityOn

/-- DynamicsWorld::getNbRigidBodies (src/src/engine/DynamicsWorld.h lines
269 to 272). -/
def Rp3d.DynamicsWorld.getNbRigidBodies (w : Rp3d.DynamicsWorld) : ℕ :=
  w.mRigidBodies.length

/-- DynamicsWorld::getNbContactManifolds (src/src/engine/DynamicsWorld.h
lines 284 to 287). -/
def Rp3d.DynamicsWorld.getNbContactManifolds (w : Rp3d.DynamicsWorld) : ℕ :=
  w.mContactManifolds.length

/-- Modelled from the spec: integration of one body over one timestep, spec
section 4.3 steps 3 and 6: gravity is added to the linear velocity of an
awake body when gravity is on, then position and orientation advance by the
velocities times the timestep; a sleeping body is untouched. -/
def Rp3d.RigidBody.integrate (g : Rp3d.Vector3) (isGravityOn : Bool)
    (dt : ℝ) (b : Rp3d.RigidBody) : Rp3d.RigidBody :=
  if b.mIsAwake then
    let v := if isGravityOn then b.mLinearVelocity.add (g.mul dt)
             else b.mLinearVelocity
    { b with
      mLinearVelocity := v
      mTransform :=
        ⟨b.mTransform.mPosition.add (v.mul dt),
         b.mTransform.mOrientation.add (b.mAngularVelocity.mul dt)⟩ }
  else b

/-- Modelled from the spec: DynamicsWorld::update is declared at
src/src/engine/DynamicsWorld.h lines 152 to 153 but its body is not under
src. Following spec section 4.3 it is meaningful only while Running and a
no op otherwise; while Running it advances every body by one fixed
timestep (the contact and joint solving that runs between gravity
application and integration modifies only velocities of constrained bodies
and is abstracted away: no claim below observes it). -/
def Rp3d.DynamicsWorld.update (w : Rp3d.DynamicsWorld) :
    Rp3d.DynamicsWorld :=
  if w.mTimer.mIsRunning then
    { w with
      mRigidBodies := w.mRigidBodies.map
        (Rp3d.RigidBody.integrate w.mGravity w.mIsGravityOn
          w.mTimer.mTimestep) }
  else w

/-- The list of body transforms of a world, the observable that the
determinism property compares between two runs. -/
def Rp3d.DynamicsWorld.bodyTransforms (w : Rp3d.DynamicsWorld) :
    List Rp3d.Transform :=
  w.mRigidBodies.map Rp3d.RigidBody.mTransform

/-- A concrete world in the Stopped state with one awake body, used by the
world witnesses. -/
def rp3dStoppedWorld : Rp3d.DynamicsWorld :=
  { mTimer := ⟨1, false⟩
    mContactSolver := ⟨10, false, false⟩
    mConstraintSolver := ⟨false⟩
    mIsDeactivationActive := false
    mRigidBodies := [⟨⟨⟨0, 0, 0⟩, ⟨0, 0, 0⟩⟩, ⟨1, 0, 0⟩, ⟨0, 0, 0⟩, true⟩]
    mContactManifolds := []
    mJoints := []
    mGravity := ⟨0, -9, 0⟩
    mIsGravityOn := true }

/-- The same concrete world in the Running state. -/
def rp3dRunningWorld : Rp3d.DynamicsWorld :=
  { rp3dStoppedWorld with mTimer := ⟨1, true⟩ }

/-- C8: while the world is in the Stopped state (start not called, or stop
called last), update is a no op: the whole world state, in particular every
body's transform and velocities, is unchanged. -/
theorem c8_update_stopped_noop (w : Rp3d.DynamicsWorld)
    (h : w.mTimer.mIsRunning = false) : w.update = w := by
  unfold Rp3d.DynamicsWorld.update
  rw [h]
  simp

/-- Witness for C8 at the concrete stopped world. -/
theorem c8_update_stopped_noop_witness :
    rp3dStoppedWorld.mTimer.mIsRunning = false ∧
    rp3dStoppedWorld.update = rp3dStoppedWorld :=
  ⟨rfl, c8_update_stopped_noop rp3dStoppedWorld rfl⟩

/-- C9: update is a deterministic function of the world state and
configuration: two runs of any number of update steps from equal initial
world states produce equal body transforms. -/
theorem c9_update_deterministic (n : ℕ) (w1 w2 : Rp3d.DynamicsWorld)
    (h : w1 = w2) :
    (Rp3d.DynamicsWorld.update^[n] w1).bodyTransforms =
      (Rp3d.DynamicsWorld.update^[n] w2).bodyTransforms := by
  rw [h]

/-- Witness for C9: two runs of two steps from the concrete running world. -/
theorem c9_update_deterministic_witness :
    rp3dRunningWorld = rp3dRunningWorld ∧
    (Rp3d.DynamicsWorld.update^[2] rp3dRunningWorld).bodyTransforms =
      (Rp3d.DynamicsWorld.update^[2] rp3dRunningWorld).bodyTransforms :=
  ⟨rfl, c9_update_deterministic 2 rp3dRunningWorld rp3dRunningWorld rfl⟩

/-- C10: start and stop mutate only the timer: the gravity vector, the
gravity flag, the rigid bodies, the contact manifolds, the joints and all
reported counts are the same before and after either call. -/
theorem c10_start_stop_frame (w : Rp3d.DynamicsWorld) :
    w.start.getGravity = w.getGravity ∧
    w.start.getIsGravityOn = w.getIsGravityOn ∧
    w.start.getNbRigidBodies = w.getNbRigidBodies ∧
    w.start.getNbContactManifolds = w.getNbContactManifolds ∧
    w.start.mRigidBodies = w.mRigidBodies ∧
    w.start.mContactManifolds = w.mContactManifolds ∧
    w.start.mJoints = w.mJoints ∧
    w.stop.getGravity = w.getGravity ∧
    w.stop.getIsGravityOn = w.getIsGravityOn ∧
    w.stop.getNbRigidBodies = w.getNbRigidBodies ∧
    w.stop.getNbContactManifolds = w.getNbContactManifolds ∧
    w.stop.mRigidBodies = w.mRigidBodies ∧
    w.stop.mContactManifolds = w.mContactManifolds ∧
    w.stop.mJoints = w.mJoints :=
  ⟨rfl, rfl, rfl, rfl, rfl, rfl, rfl, rfl, rfl, rfl, rfl, rfl, rfl, rfl⟩
